import Mathlib

/-!
Shallow embedding of `liquity_liquidation_bot.py`, `liquity_position_info.py`
and `uniswap_option_risks.py`.  On-chain quantities are raw 18-decimal
fixed-point unsigned integers; the Python code divides them by `1e18` and
computes in floats, which this embedding renders as exact rationals.  The
option-risk and impermanent-loss calculators are embedded over the reals.
-/

/-- Raw trove record returned by `TroveManager.Troves(address)`:
`trove[0]` is the debt and `trove[1]` the collateral, both raw 18-decimal
fixed-point unsigned integers. -/
structure TroveRaw where
  debt : ℕ
  coll : ℕ
deriving DecidableEq

/-- The external world read during one evaluation in `get_trove_details`:
the trove-manager mapping (addresses are modelled as naturals) and the
ETH/USD price served by the price feed at that moment. -/
structure ChainEnv where
  troves : ℕ → TroveRaw
  ethPrice : ℚ

/-- Embedding of `get_eth_price()`: the price read from the external feed. -/
def get_eth_price (env : ChainEnv) : ℚ := env.ethPrice

/-- The dictionary built by `get_trove_details` when the debt is positive. -/
structure TroveDetails where
  address : ℕ
  collateral : ℚ
  debt : ℚ
  collateral_ratio : ℚ
deriving DecidableEq

/-- Embedding of `get_trove_details(address)`: scales the raw trove by
`1e18`; when `debt > 0` it fetches the price and returns the dictionary with
`collateral_ratio = (coll * price) / debt`, otherwise it returns `None`
without fetching a price and without dividing by `debt`. -/
def get_trove_details (env : ChainEnv) (address : ℕ) : Option TroveDetails :=
  let trove := env.troves address
  let coll : ℚ := (trove.coll : ℚ) / 10 ^ 18
  let debt : ℚ := (trove.debt : ℚ) / 10 ^ 18
  if 0 < debt then
    let price := get_eth_price env
    some { address := address, collateral := coll, debt := debt,
           collateral_ratio := coll * price / debt }
  else
    none

/-- Result of `get_trove_details` instrumented with how many times the
division by `debt` was executed and how many price fetches were issued:
the `debt > 0` guard is what keeps the division-by-zero branch unreachable. -/
structure EvalTrace where
  result : Option TroveDetails
  debtDivisions : ℕ
  priceFetches : ℕ

/-- The same computation as `get_trove_details`, additionally counting the
divisions by `debt` and the price fetches performed. -/
def get_trove_details_traced (env : ChainEnv) (address : ℕ) : EvalTrace :=
  let trove := env.troves address
  let coll : ℚ := (trove.coll : ℚ) / 10 ^ 18
  let debt : ℚ := (trove.debt : ℚ) / 10 ^ 18
  if 0 < debt then
    let price := get_eth_price env
    { result := some { address := address, collateral := coll, debt := debt,
                       collateral_ratio := coll * price / debt },
      debtDivisions := 1, priceFetches := 1 }
  else
    { result := none, debtDivisions := 0, priceFetches := 0 }

/-- The eligibility test of `main`:
`lowest_cr_trove['collateral_ratio'] < 1.1`, with the threshold left as a
parameter (the source hardcodes `1.1`, i.e. `11/10`). -/
def eligible (d : TroveDetails) (threshold : ℚ) : Bool :=
  decide ( d.collateral_ratio < threshold)

/-- A signed transaction as built by `liquidate_trove`:
`liquidateTroves([address])` with `chainId` 1, `gas` 2000000, and the gas
price and nonce read from the node just before building it. -/
structure SignedTx where
  chainId : ℕ
  gas : ℕ
  gasPrice : ℕ
  nonce : ℕ
  targets : List ℕ
deriving DecidableEq

/-- Embedding of `liquidate_trove(address)`.  The first component is the
transaction handle returned to the caller; the second lists every
transaction pushed to `send_raw_transaction` during the call (the body is
straight-line: one build, one sign, one send). -/
def liquidate_trove (nonce gasPrice address : ℕ) : SignedTx × List SignedTx :=
  let txn : SignedTx :=
    { chainId := 1, gas := 2000000, gasPrice := gasPrice, nonce := nonce,
      targets := [address] }
  (txn, [txn])

/-- Observable actions of one iteration of `main`'s `while True` loop. -/
inductive Event where
  | submitted (address : ℕ)
  | confirmedLogged (address : ℕ)
  | infoLogged
  | errorLogged
  | slept (seconds : ℕ)
deriving DecidableEq

/-- Ghost state carried across loop iterations: the addresses of
transactions that were submitted but whose confirmation was never observed
(the receipt wait raised).  The Python process keeps no such record — the
source has no in-flight set — which is exactly what lets this list grow. -/
structure BotState where
  pending : List ℕ
deriving DecidableEq

/-- What the outside world does during one iteration of the loop:
`firstTrove` is `getFirstTroveInSortedList()`, `readFails` says whether a
chain-data or price read raises this iteration, and `receiptArrives` says
whether `wait_for_transaction_receipt` returns a receipt (otherwise it
raises a timeout error). -/
structure IterEnv where
  chain : ChainEnv
  firstTrove : ℕ
  readFails : Bool
  nonce : ℕ
  gasPrice : ℕ
  receiptArrives : Bool

/-- Outcome of the body of the `try` block: either it ran through to the
trailing `time.sleep(15)`, or an exception escaped to the `except` handler,
carrying the addresses newly left with an unconfirmed submitted
transaction. -/
inductive BodyResult where
  | ok (events : List Event)
  | raised (newPending : List ℕ) (events : List Event)

/-- The body of one iteration of `main`'s `while True: try:` block,
mirroring the source: read the head of the sorted trove list, evaluate it
with `get_trove_details`, and when the ratio is below `1.1` call
`liquidate_trove` and block on `wait_for_transaction_receipt`. -/
def loop_body (e : IterEnv) : BodyResult :=
  if e.readFails then
    .raised [] []
  else
    match get_trove_details e.chain e.firstTrove with
    | some d =>
        if eligible d (11 / 10) then
          if e.receiptArrives then
            .ok [Event.submitted d.address, Event.confirmedLogged d.address]
          else
            .raised [ d.address] [Event.submitted d.address]
        else
          .ok [Event.infoLogged]
    | none => .ok [Event.infoLogged]

/-- One full iteration: the body under `try`, closed by either the normal
`time.sleep(15)` or the blanket `except Exception` handler that logs the
error generically and sleeps 5 seconds.  Every raise is caught; no
iteration terminates the process. -/
def step (s : BotState) (e : IterEnv) : BotState × List Event :=
  match loop_body e with
  | .ok events => (s, events ++ [Event.slept 15])
  | .raised newPending events =>
      ({ pending := newPending ++ s.pending },
       events ++ [Event.errorLogged, Event.slept 5])

/-- Iterating `step` over a finite schedule of environments. -/
def run (s : BotState) : List IterEnv → BotState
  | [] => s
  | e :: es => run (step s e).1 es

/-- A constant trove mapping: every address owes 3000 LUSD (raw
`3000e18`) against 1.5 ETH of collateral (raw `1.5e18`). -/
def troves0 : ℕ → TroveRaw := fun _ => { debt := 3000 * 10 ^ 18, coll := 15 * 10 ^ 17 }

/-- Chain snapshot with the price feed serving 1900 (ratio 0.95). -/
def envA : ChainEnv := { troves := troves0, ethPrice := 1900 }

/-- Same troves as `envA` but the price feed now serves 2300 (ratio 1.15). -/
def envB : ChainEnv := { troves := troves0, ethPrice := 2300 }

/-- Chain snapshot whose trove 0 has zero debt and 5 ETH of collateral. -/
def envZero : ChainEnv :=
  { troves := fun _ => { debt := 0, coll := 5 * 10 ^ 18 }, ethPrice := 2000 }

/-- An iteration in which trove 0 is eligible (ratio `0.95 < 1.1`) and the
receipt wait times out. -/
def timeoutIter : IterEnv :=
  { chain := envA, firstTrove := 0, readFails := false, nonce := 7,
    gasPrice := 40, receiptArrives := false }

/-- An iteration in which a chain-data read raises. -/
def failIter : IterEnv :=
  { chain := envA, firstTrove := 0, readFails := true, nonce := 7,
    gasPrice := 40, receiptArrives := true }

/-- An iteration that reads the zero-debt trove of `envZero`. -/
def zeroIter : IterEnv :=
  { chain := envZero, firstTrove := 0, readFails := false, nonce := 7,
    gasPrice := 40, receiptArrives := true }

/-- A Uniswap position as in `uniswap_option_risks.py`: amounts of the two
tokens, the current price of token B in terms of token A, and the fee
tier. -/
structure UniswapPosition where
  token_a : ℝ
  token_b : ℝ
  price : ℝ
  fee_tier : ℝ

/-- The implied strike computed inside `calculate_uniswap_option_risks`:
`np.sqrt(k / (token_a * token_b))` with `k = token_a * token_b`. -/
noncomputable def impliedStrike (p : UniswapPosition) : ℝ :=
  Real.sqrt ((p.token_a * p.token_b) / (p.token_a * p.token_b))

/-- The four Greeks returned by `calculate_uniswap_option_risks`. -/
structure Greeks where
  delta : ℝ
  gamma : ℝ
  vega : ℝ
  theta : ℝ

/-- The Black-Scholes computation of `calculate_uniswap_option_risks` with
the strike an explicit parameter, for comparison; `cdf` and `pdf` stand for
`scipy.stats.norm.cdf` and `scipy.stats.norm.pdf`. -/
noncomputable def risksGivenStrike (cdf pdf : ℝ → ℝ) (p : UniswapPosition) (strike : ℝ)
    (days : ℕ) (risk_free_rate volatility : ℝ) : Greeks :=
  let T : ℝ := (days : ℝ) / 365
  let d1 := (Real.log (p.price / strike) + (risk_free_rate + 0.5 * volatility ^ 2) * T) /
    (volatility * Real.sqrt T)
  let d2 := d1 - volatility * Real.sqrt T
  let delta := cdf d1 - 1
  let gamma := pdf d1 / (p.price * volatility * Real.sqrt T)
  let vega := p.price * pdf d1 * Real.sqrt T / 100
  let theta := (-p.price * pdf d1 * volatility / (2 * Real.sqrt T)
      - risk_free_rate * strike * Real.exp (-risk_free_rate * T) * cdf (-d2)) / 365
  let position_value := p.token_a + p.token_b * p.price
  let adjustment_factor := position_value / (p.price * 100)
  { delta := delta * adjustment_factor, gamma := gamma * adjustment_factor,
    vega := vega * adjustment_factor, theta := theta * adjustment_factor }

/-- Embedding of `calculate_uniswap_option_risks(position, days, r, vol)`:
computes `k`, the implied strike `sqrt(k / (token_a * token_b))`, the
Black-Scholes `d1`/`d2` against that strike, the Greeks, and the
position-size adjustment. -/
noncomputable def calculate_uniswap_option_risks (cdf pdf : ℝ → ℝ) (p : UniswapPosition)
    (days : ℕ) (risk_free_rate volatility : ℝ) : Greeks :=
  let k := p.token_a * p.token_b
  let strike := Real.sqrt (k / (p.token_a * p.token_b))
  let T : ℝ := (days : ℝ) / 365
  let d1 := (Real.log (p.price / strike) + (risk_free_rate + 0.5 * volatility ^ 2) * T) /
    (volatility * Real.sqrt T)
  let d2 := d1 - volatility * Real.sqrt T
  let delta := cdf d1 - 1
  let gamma := pdf d1 / (p.price * volatility * Real.sqrt T)
  let vega := p.price * pdf d1 * Real.sqrt T / 100
  let theta := (-p.price * pdf d1 * volatility / (2 * Real.sqrt T)
      - risk_free_rate * strike * Real.exp (-risk_free_rate * T) * cdf (-d2)) / 365
  let position_value := p.token_a + p.token_b * p.price
  let adjustment_factor := position_value / (p.price * 100)
  { delta := delta * adjustment_factor, gamma := gamma * adjustment_factor,
    vega := vega * adjustment_factor, theta := theta * adjustment_factor }

/-- The example position of `uniswap_option_risks.main`. -/
noncomputable def examplePool : UniswapPosition :=
  { token_a := 100000, token_b := 1000, price := 2000, fee_tier := 3 / 1000 }

/-- Embedding of `calculate_impermanent_loss(price_change_ratio)`. -/
noncomputable def calculate_impermanent_loss (price_change_ratio : ℝ) : ℝ :=
  2 * Real.sqrt price_change_ratio / (1 + price_change_ratio) - 1

/-- C1: for every position with positive debt and every price and threshold,
`get_trove_details` returns the position's scaled collateral and debt with
`collateral_ratio = collateral * price / debt`, and the eligibility test of
`main` reports the position eligible exactly when that ratio is strictly
below the threshold; at a ratio exactly equal to the threshold the position
is not eligible. -/
theorem C1_health_ratio_strict_boundary (env : ChainEnv) (address : ℕ)
    (threshold : ℚ) (hdebt : 0 < (env.troves address).debt) :
    ∃ d : TroveDetails, get_trove_details env address = some d ∧
      d.collateral = ((env.troves address).coll : ℚ) / 10 ^ 18 ∧
      d.debt = ((env.troves address).debt : ℚ) / 10 ^ 18 ∧
      d.collateral_ratio = d.collateral * env.ethPrice / d.debt ∧
      (eligible d threshold = true ↔ d.collateral_ratio < threshold) ∧
      ( d.collateral_ratio = threshold → eligible d threshold = false) := by
  have hq : (0 : ℚ) < ((env.troves address).debt : ℚ) / 10 ^ 18 :=
    div_pos (by exact_mod_cast hdebt) (by norm_num)
  refine ⟨{ address := address,
            collateral := ((env.troves address).coll : ℚ) / 10 ^ 18,
            debt := ((env.troves address).debt : ℚ) / 10 ^ 18,
            collateral_ratio := ((env.troves address).coll : ℚ) / 10 ^ 18 *
              env.ethPrice / (((env.troves address).debt : ℚ) / 10 ^ 18) },
    ?_, rfl, rfl, rfl, ?_, ?_⟩
  · simp only [get_trove_details, get_eth_price]
    rw [if_pos hq]
  · simp [eligible]
  · intro h
    simp only [] at h
    simp [eligible, h]

/-- Witness for C1: the trove of `envA` (debt 3000, collateral 1.5, price
1900), checked at the source's threshold `1.1`. -/
theorem C1_witness :
    0 < (envA.troves 0).debt ∧
    (∃ d : TroveDetails, get_trove_details envA 0 = some d ∧
      d.collateral = ((envA.troves 0).coll : ℚ) / 10 ^ 18 ∧
      d.debt = ((envA.troves 0).debt : ℚ) / 10 ^ 18 ∧
      d.collateral_ratio = d.collateral * envA.ethPrice / d.debt ∧
      (eligible d (11 / 10) = true ↔ d.collateral_ratio < 11 / 10) ∧
      ( d.collateral_ratio = 11 / 10 → eligible d (11 / 10) = false)) :=
  ⟨by decide, C1_health_ratio_strict_boundary envA 0 (11 / 10) (by decide)⟩

/-- C2: a position with zero debt is never reported eligible: whatever its
collateral and whatever the current price, `get_trove_details` returns
`None`, the division by `debt` is never executed (and no price is even
fetched), and an iteration of the monitor loop that reads such a trove
submits no liquidation. -/
theorem C2_zero_debt_never_eligible (env : ChainEnv) (address : ℕ)
    (s : BotState) (e : IterEnv) (a : ℕ)
    (hdebt : (env.troves address).debt = 0)
    (hchain : e.chain = env) (hfirst : e.firstTrove = address) :
    get_trove_details env address = none ∧
    (get_trove_details_traced env address).debtDivisions = 0 ∧
    (get_trove_details_traced env address).priceFetches = 0 ∧
    Event.submitted a ∉ (step s e).2 := by
  have hq : ¬ (0 : ℚ) < ((env.troves address).debt : ℚ) / 10 ^ 18 := by
    rw [hdebt]
    norm_num
  have hnone : get_trove_details env address = none := by
    unfold get_trove_details
    rw [if_neg hq]
  refine ⟨hnone, ?_, ?_, ?_⟩
  · unfold get_trove_details_traced
    rw [if_neg hq]
  · unfold get_trove_details_traced
    rw [if_neg hq]
  · cases hr : e.readFails with
    | true => simp [step, loop_body, hr]
    | false => simp [step, loop_body, hr, hchain, hfirst, hnone]

/-- Witness for C2: the zero-debt trove of `envZero` holding 5 ETH of
collateral at price 2000, read by the iteration `zeroIter`. -/
theorem C2_witness :
    ((envZero.troves 0).debt = 0 ∧ zeroIter.chain = envZero ∧
      zeroIter.firstTrove = 0) ∧
    (get_trove_details envZero 0 = none ∧
      (get_trove_details_traced envZero 0).debtDivisions = 0 ∧
      (get_trove_details_traced envZero 0).priceFetches = 0 ∧
      Event.submitted 0 ∉ (step { pending := [] } zeroIter).2) :=
  ⟨⟨rfl, rfl, rfl⟩,
    C2_zero_debt_never_eligible envZero 0 { pending := [] } zeroIter 0 rfl rfl rfl⟩

/-- C3: a concrete run refuting the in-flight invariant: the source keeps no
de-duplication set, so after two iterations in which the eligible trove 0 is
submitted and the receipt wait times out each time, two simultaneously
unconfirmed liquidation submissions for position id 0 exist. -/
theorem C3_two_unconfirmed_attempts_same_id :
    (run { pending := [] } [timeoutIter, timeoutIter]).pending.count 0 = 2 := by
  norm_num [run, step, loop_body, get_trove_details, get_eth_price, eligible,
    timeoutIter, envA, troves0, List.count_cons]

/-- C4: after an iteration in which the receipt wait for the submitted
transaction times out, the raised timeout is swallowed by the blanket
handler as a generic logged error (no Timeout classification), and the very
next iteration submits another liquidation transaction for position 0 while
the first is still unconfirmed, with no idempotency check in between. -/
theorem C4_timeout_silently_retried :
    0 ∈ (step { pending := [] } timeoutIter).1.pending ∧
    Event.errorLogged ∈ (step { pending := [] } timeoutIter).2 ∧
    Event.submitted 0 ∈ (step (step { pending := [] } timeoutIter).1 timeoutIter).2 := by
  norm_num [step, loop_body, get_trove_details, get_eth_price, eligible,
    timeoutIter, envA, troves0]

/-- C5: every iteration in which a chain-data or price read raises is caught
by the blanket `except Exception` handler: the loop logs the error, sleeps
the 5-second backoff, leaves its state unchanged, and goes on to process the
rest of the schedule exactly as if the failed iteration had not happened —
no read error terminates the process. -/
theorem C5_read_errors_caught_and_loop_continues (s : BotState) (e : IterEnv)
    (h : e.readFails = true) :
    step s e = (s, [Event.errorLogged, Event.slept 5]) ∧
    ∀ es : List IterEnv, run s (e :: es) = run s es := by
  constructor
  · simp [step, loop_body, h]
  · intro es
    simp [run, step, loop_body, h]

/-- Witness for C5: the failing read of `failIter` from state with one
pending address. -/
theorem C5_witness :
    failIter.readFails = true ∧
    (step { pending := [3] } failIter = ({ pending := [3] }, [Event.errorLogged, Event.slept 5]) ∧
      ∀ es : List IterEnv, run { pending := [3] } (failIter :: es) = run { pending := [3] } es) :=
  ⟨rfl, C5_read_errors_caught_and_loop_continues { pending := [3] } failIter rfl⟩

/-- C7 counterexample: the health evaluation of the source is not a pure,
I/O-free function of (position, threshold): with the identical trove mapping
— hence the identical position snapshot for address 0 — the run whose price
read during evaluation returns 1900 reports the position eligible at the
source's threshold `1.1`, while the run whose price read returns 2300
reports it not eligible, so two runs with the same inputs disagree because
of the external price read made during evaluation. -/
theorem C7_same_position_different_result :
    envA.troves = envB.troves ∧
    (get_trove_details envA 0).map (fun d => eligible d (11 / 10)) = some true ∧
    (get_trove_details envB 0).map (fun d => eligible d (11 / 10)) = some false := by
  refine ⟨rfl, ?_, ?_⟩
  · norm_num [get_trove_details, get_eth_price, eligible, envA, troves0]
  · norm_num [get_trove_details, get_eth_price, eligible, envB, troves0]

/-- C7 (amended): the evaluation is deterministic in the trove record it
reads together with the price it fetches — two environments agreeing on the
record for the address and on the fetched price produce identical results;
purity over (position, threshold) alone fails only because the price is
fetched inside the evaluation. -/
theorem C7_deterministic_given_fetched_price (env1 env2 : ChainEnv)
    (address : ℕ) (ht : env1.troves address = env2.troves address)
    (hp : get_eth_price env1 = get_eth_price env2) :
    get_trove_details env1 address = get_trove_details env2 address := by
  simp only [get_eth_price] at hp
  simp only [get_trove_details, get_eth_price, ht, hp]

/-- Witness for C7 (amended): two identical snapshots trivially agree on the
trove record and the fetched price, and the results coincide. -/
theorem C7_amended_witness :
    (envA.troves 0 = envA.troves 0 ∧ get_eth_price envA = get_eth_price envA) ∧
    get_trove_details envA 0 = get_trove_details envA 0 :=
  ⟨⟨rfl, rfl⟩, C7_deterministic_given_fetched_price envA envA 0 rfl rfl⟩

/-- C8: each call of `liquidate_trove` pushes exactly one signed transaction
to the provider's send path — the returned handle is that very transaction,
it is bound to exactly the given position id, and there is no implicit retry;
moreover no single iteration of the monitor loop emits more than one
submission. -/
theorem C8_exactly_one_transaction_per_submit (nonce gasPrice address : ℕ) :
    (liquidate_trove nonce gasPrice address).2 =
      [(liquidate_trove nonce gasPrice address).1] ∧
    (liquidate_trove nonce gasPrice address).2.length = 1 ∧
    (liquidate_trove nonce gasPrice address).1.targets = [address] ∧
    ∀ (s : BotState) (e : IterEnv),
      ((step s e).2.countP fun ev =>
        match ev with | Event.submitted _ => true | _ => false) ≤ 1 := by
  refine ⟨rfl, rfl, rfl, ?_⟩
  intro s e
  unfold step loop_body
  cases hr : e.readFails
  · cases hd : get_trove_details e.chain e.firstTrove with
    | none => simp [List.countP_cons]
    | some d =>
      cases he : eligible d (11 / 10)
      · simp [he, List.countP_cons]
      · cases hc : e.receiptArrives
        · simp [he, hc, List.countP_cons]
        · simp [he, hc, List.countP_cons]
  · simp [List.countP_cons]

/-- C9: for every pool with `token_a * token_b > 0` the implied strike
computed inside `calculate_uniswap_option_risks` equals 1 — it is
`sqrt(k / (token_a * token_b))` with `k = token_a * token_b` — so the
returned Greeks coincide, for any `cdf`/`pdf`, with the same Black-Scholes
computation performed against the constant strike 1: `d1` and all Greeks
depend on `position.price` relative to 1, not on any strike derived from
the pool's composition. -/
theorem C9_implied_strike_is_one (cdf pdf : ℝ → ℝ) (p : UniswapPosition)
    (days : ℕ) (risk_free_rate volatility : ℝ)
    (h : 0 < p.token_a * p.token_b) :
    impliedStrike p = 1 ∧
    calculate_uniswap_option_risks cdf pdf p days risk_free_rate volatility =
      risksGivenStrike cdf pdf p 1 days risk_free_rate volatility := by
  have hk : (p.token_a * p.token_b) / (p.token_a * p.token_b) = 1 :=
    div_self (ne_of_gt h)
  constructor
  · rw [impliedStrike, hk, Real.sqrt_one]
  · simp only [calculate_uniswap_option_risks, risksGivenStrike, hk, Real.sqrt_one]

/-- Witness for C9: the example pool of the script (100000 USDC, 1000 ETH,
price 2000), with the identity in place of the normal cdf/pdf. -/
theorem C9_witness :
    0 < examplePool.token_a * examplePool.token_b ∧
    (impliedStrike examplePool = 1 ∧
      calculate_uniswap_option_risks id id examplePool 30 (1 / 100) (1 / 2) =
        risksGivenStrike id id examplePool 1 30 (1 / 100) (1 / 2)) :=
  ⟨by norm_num [examplePool],
    C9_implied_strike_is_one id id examplePool 30 (1 / 100) (1 / 2)
      (by norm_num [examplePool])⟩

/-- C10: for every positive price-change ratio the impermanent loss
`2 * sqrt r / (1 + r) - 1` is nonpositive, vanishes exactly at ratio 1, and
is invariant under inverting the price change. -/
theorem C10_impermanent_loss_shape (r : ℝ) (h : 0 < r) :
    calculate_impermanent_loss r ≤ 0 ∧
    (calculate_impermanent_loss r = 0 ↔ r = 1) ∧
    calculate_impermanent_loss r = calculate_impermanent_loss (1 / r) := by
  have hr0 : r ≠ 0 := ne_of_gt h
  have hs : 0 < Real.sqrt r := Real.sqrt_pos.mpr h
  have hsq : Real.sqrt r ^ 2 = r := Real.sq_sqrt h.le
  have h1r : (0 : ℝ) < 1 + r := by linarith
  refine ⟨?_, ⟨?_, ?_⟩, ?_⟩
  · rw [calculate_impermanent_loss, sub_nonpos, div_le_one h1r]
    nlinarith [sq_nonneg (Real.sqrt r - 1)]
  · intro h0
    rw [calculate_impermanent_loss, sub_eq_zero, div_eq_one_iff_eq (ne_of_gt h1r)] at h0
    have h2 : (Real.sqrt r - 1) ^ 2 = 0 := by linear_combination hsq - h0
    have h3 : Real.sqrt r = 1 := by
      have := pow_eq_zero_iff (n := 2) (by norm_num) |>.mp h2
      linarith [this]
    rw [← hsq, h3]
    norm_num
  · intro h1
    rw [calculate_impermanent_loss, h1, Real.sqrt_one]
    norm_num
  · rw [calculate_impermanent_loss, calculate_impermanent_loss, one_div,
      Real.sqrt_inv]
    have hplus : 1 + r⁻¹ = (r + 1) / r := by field_simp
    rw [hplus]
    rw [div_div_eq_mul_div]
    rw [show 2 * (Real.sqrt r)⁻¹ * r = 2 * (r / Real.sqrt r) by ring]
    rw [Real.div_sqrt]
    ring

/-- Witness for C10: a fourfold price change — the loss is `2*2/5 - 1 = -1/5`,
nonzero, and equal to the loss of the inverse change `1/4`. -/
theorem C10_witness :
    (0 : ℝ) < 4 ∧
    (calculate_impermanent_loss 4 ≤ 0 ∧
      (calculate_impermanent_loss 4 = 0 ↔ (4 : ℝ) = 1) ∧
      calculate_impermanent_loss 4 = calculate_impermanent_loss (1 / 4)) :=
  ⟨by norm_num, C10_impermanent_loss_shape 4 (by norm_num)⟩
